import Mathlib

/-!
Verification of the ghost-subscribe client (Ghost newsletter subscription shim).

The development shallowly embeds the three source files:

* the main implementation (session + permanent storage, integrity-token flow):
  constants NEWSLETTER_SESSION_KEY / NEWSLETTER_NEVER_SHOW_KEY, the storage helpers
  hasSubscribedThisSession, markSubscribedThisSession, hasUserDismissedPermanently,
  dismissNewsletter, clearDismissal, clearSessionSubscription, shouldShowForm,
  the token fetcher getIntegrityToken, and the orchestrator subscribeToGhost;
* the legacy snippet ghost-subscribe.js, whose subscribeToGhost issues a single
  POST and has no return statement (its value is JS undefined).

Modelling decisions:

* Web storage is a pair of key-value stores (session-scoped and permanent) plus a
  storageAvailable flag. When the host disables storage, accessing the storage
  objects throws (SecurityError); this is modelled by the storage primitives
  returning an exceptional value. The source never guards storage access.
* fetch outcomes are part of the environment: each endpoint either yields a
  response (status plus body) or fails at the network level, which in JS is a
  rejected promise, i.e. a thrown exception at the await site.
* response.json() on the error path is modelled by the already-parsed optional
  body carried in the response; the .catch handler that maps a parse failure to
  the empty object is modelled by the parse result being none.
* Console logging and DOM class toggling are omitted: no claim under scrutiny
  mentions them. The returned result, the storage state, and which network
  requests were issued are tracked exactly.
-/

namespace GhostSubscribe

/-- A key-value string store (models one web storage area). -/
structure Store where
  data : String → Option String

/-- storage.getItem: the stored string, or null (none) when the key is absent. -/
def Store.get (s : Store) (k : String) : Option String := s.data k

/-- storage.setItem. -/
def Store.set (s : Store) (k v : String) : Store :=
  ⟨fun q => if q = k then some v else s.data q⟩

/-- storage.removeItem. -/
def Store.remove (s : Store) (k : String) : Store :=
  ⟨fun q => if q = k then none else s.data q⟩

/-- A store with no keys. -/
def Store.empty : Store := ⟨fun _ => none⟩

/-- Exceptions a JS execution of this code can throw: a network-level fetch
failure (rejected fetch promise), the Error thrown by getIntegrityToken on a
non-ok status, and the SecurityError thrown on storage access when the host has
disabled storage. -/
inductive JsException where
  | fetchFailed
  | tokenFetchError (status : Nat)
  | storageDisabled
deriving DecidableEq

/-- The browser-provided state: whether storage is available, the
session-scoped store (sessionStorage) and the permanent store (localStorage). -/
structure BrowserEnv where
  storageAvailable : Bool
  session : Store
  localStore : Store

/-- sessionStorage.getItem: throws when storage is disabled by the host. -/
def sessionGetItem (env : BrowserEnv) (k : String) :
    Except JsException (Option String) :=
  if env.storageAvailable then .ok (env.session.get k) else .error .storageDisabled

/-- sessionStorage.setItem: throws when storage is disabled by the host. -/
def sessionSetItem (env : BrowserEnv) (k v : String) :
    Except JsException BrowserEnv :=
  if env.storageAvailable then .ok { env with session := env.session.set k v }
  else .error .storageDisabled

/-- sessionStorage.removeItem: throws when storage is disabled by the host. -/
def sessionRemoveItem (env : BrowserEnv) (k : String) :
    Except JsException BrowserEnv :=
  if env.storageAvailable then .ok { env with session := env.session.remove k }
  else .error .storageDisabled

/-- localStorage.getItem: throws when storage is disabled by the host. -/
def localGetItem (env : BrowserEnv) (k : String) :
    Except JsException (Option String) :=
  if env.storageAvailable then .ok (env.localStore.get k) else .error .storageDisabled

/-- localStorage.setItem: throws when storage is disabled by the host. -/
def localSetItem (env : BrowserEnv) (k v : String) :
    Except JsException BrowserEnv :=
  if env.storageAvailable then .ok { env with localStore := env.localStore.set k v }
  else .error .storageDisabled

/-- localStorage.removeItem: throws when storage is disabled by the host. -/
def localRemoveItem (env : BrowserEnv) (k : String) :
    Except JsException BrowserEnv :=
  if env.storageAvailable then .ok { env with localStore := env.localStore.remove k }
  else .error .storageDisabled

/-- Source: NEWSLETTER_SESSION_KEY, the sessionStorage key for the current session. -/
def NEWSLETTER_SESSION_KEY : String := "newsletter_subscribed_session"

/-- Source: NEWSLETTER_NEVER_SHOW_KEY, the localStorage key for permanent dismissal. -/
def NEWSLETTER_NEVER_SHOW_KEY : String := "newsletter_never_show"

/-- Source: MESSAGE_DISPLAY_DURATION, milliseconds a transient message stays visible. -/
def MESSAGE_DISPLAY_DURATION : Nat := 5000

/-- Source hasSubscribedThisSession:
sessionStorage.getItem(NEWSLETTER_SESSION_KEY) === "true". -/
def hasSubscribedThisSession (env : BrowserEnv) : Except JsException Bool :=
  match sessionGetItem env NEWSLETTER_SESSION_KEY with
  | .error e => .error e
  | .ok v => .ok (v == some "true")

/-- Source markSubscribedThisSession:
sessionStorage.setItem(NEWSLETTER_SESSION_KEY, "true"). -/
def markSubscribedThisSession (env : BrowserEnv) : Except JsException BrowserEnv :=
  sessionSetItem env NEWSLETTER_SESSION_KEY "true"

/-- Source hasUserDismissedPermanently:
localStorage.getItem(NEWSLETTER_NEVER_SHOW_KEY) === "true". -/
def hasUserDismissedPermanently (env : BrowserEnv) : Except JsException Bool :=
  match localGetItem env NEWSLETTER_NEVER_SHOW_KEY with
  | .error e => .error e
  | .ok v => .ok (v == some "true")

/-- Source dismissNewsletter:
localStorage.setItem(NEWSLETTER_NEVER_SHOW_KEY, "true"), then hides the wrapper
element (DOM effect omitted). -/
def dismissNewsletter (env : BrowserEnv) : Except JsException BrowserEnv :=
  localSetItem env NEWSLETTER_NEVER_SHOW_KEY "true"

/-- Source clearDismissal: localStorage.removeItem(NEWSLETTER_NEVER_SHOW_KEY). -/
def clearDismissal (env : BrowserEnv) : Except JsException BrowserEnv :=
  localRemoveItem env NEWSLETTER_NEVER_SHOW_KEY

/-- Source clearSessionSubscription:
sessionStorage.removeItem(NEWSLETTER_SESSION_KEY). -/
def clearSessionSubscription (env : BrowserEnv) : Except JsException BrowserEnv :=
  sessionRemoveItem env NEWSLETTER_SESSION_KEY

/-- Source shouldShowForm:
!hasSubscribedThisSession() && !hasUserDismissedPermanently(), with JS
short-circuiting: the second read happens only when the first yields false. -/
def shouldShowForm (env : BrowserEnv) : Except JsException Bool :=
  match hasSubscribedThisSession env with
  | .error e => .error e
  | .ok subscribed =>
    if subscribed then .ok false
    else
      match hasUserDismissedPermanently env with
      | .error e => .error e
      | .ok dismissed => .ok !dismissed

/-- A response of the integrity-token endpoint: status plus raw text body. -/
structure TokenResponse where
  status : Nat
  body : String
deriving DecidableEq

/-- One entry of the JSON error body: its optional "message" field. -/
structure JsonErrorEntry where
  message : Option String
deriving DecidableEq

/-- The JSON error body shape {errors: [{message}, ...]}; the "errors" field may
be absent. -/
structure JsonErrorBody where
  errors : Option (List JsonErrorEntry)
deriving DecidableEq

/-- A response of the send-magic-link endpoint: status plus the best-effort JSON
parse of its body (none models a body response.json() rejects on). -/
structure MagicLinkResponse where
  status : Nat
  jsonBody : Option JsonErrorBody
deriving DecidableEq

/-- Outcome of one fetch: a response, or a network-level failure (rejected
promise: DNS, connection refused, timeout). -/
inductive FetchOutcome (ρ : Type) where
  | response (r : ρ)
  | networkFailure
deriving DecidableEq

/-- The network environment for one invocation: how each of the two endpoints
would answer its single request. -/
structure Network where
  integrityTokenEndpoint : FetchOutcome TokenResponse
  sendMagicLinkEndpoint : FetchOutcome MagicLinkResponse
deriving DecidableEq

/-- response.ok: status in the range 200..299. -/
def responseOk (status : Nat) : Bool := 200 ≤ status && status ≤ 299

/-- Source getIntegrityToken: GET the token endpoint; a network-level failure
propagates as a thrown exception; on !response.ok it throws
Error("Failed to fetch integrity token: " + status); otherwise the raw text
body is the token. -/
def getIntegrityToken (net : Network) : Except JsException String :=
  match net.integrityTokenEndpoint with
  | .networkFailure => .error .fetchFailed
  | .response r =>
    if responseOk r.status then .ok r.body
    else .error (.tokenFetchError r.status)

/-- A newsletter reference {id} inside the payload. -/
structure NewsletterRef where
  id : String
deriving DecidableEq

/-- The send-magic-link request payload of the main implementation. -/
structure Payload where
  email : String
  emailType : String
  integrityToken : String
  name : Option String
  newsletters : Option (List NewsletterRef)
deriving DecidableEq

/-- The options argument of subscribeToGhost. -/
structure SubscribeOptions where
  name : Option String
  newsletters : Option (List String)
deriving DecidableEq

/-- Payload construction: email, emailType "subscribe", the integrity token;
options.name is added only when truthy (present, non-empty), and
options.newsletters only when present with length > 0, each id wrapped as {id}. -/
def buildPayload (email integrityToken : String) (options : SubscribeOptions) :
    Payload :=
  { email := email
    emailType := "subscribe"
    integrityToken := integrityToken
    name :=
      match options.name with
      | some n => if n = "" then none else some n
      | none => none
    newsletters :=
      match options.newsletters with
      | some ids => if 0 < ids.length then some (ids.map fun id => ⟨id⟩) else none
      | none => none }

/-- Which network requests one invocation issued: whether the token GET was
issued, and the payload of the subscription POST when it was issued. -/
structure Trace where
  integrityTokenRequested : Bool
  magicLinkRequest : Option Payload

/-- The value returned to the caller:
{success: boolean, message?: string, error?: string}. -/
structure SubscriptionResult where
  success : Bool
  message : Option String
  error : Option String
deriving DecidableEq

/-- Returned on validation failure (the DOM error element instead displays
"Please enter a valid email address", see invalidEmailDisplayText). -/
def invalidEmailError : String := "Invalid email address"

/-- Text written to the error paragraph in the DOM on validation failure;
distinct from the error field of the returned result. -/
def invalidEmailDisplayText : String := "Please enter a valid email address"

/-- The generic message produced by the catch block of subscribeToGhost. -/
def networkErrorMessage : String :=
  "Network error. Please check your connection and try again."

/-- The fallback when no error message can be extracted from the error body. -/
def subscriptionFailedFallback : String := "Subscription failed. Please try again."

/-- The message of a successful subscription. -/
def successMessage : String :=
  "Success! Please check your email to confirm your subscription."

/-- errorData.errors?.[0]?.message — the optional-chained lookup of the first
error entry's message field. -/
def firstErrorMessage (body : Option JsonErrorBody) : Option String :=
  body.bind fun b => b.errors.bind fun es => es.head?.bind fun e => e.message

/-- errorData.errors?.[0]?.message || "Subscription failed. Please try again.":
the JS || operator falls back when the left side is falsy, and the empty string
is falsy, so a present-but-empty message also yields the fallback. -/
def extractedErrorMessage (body : Option JsonErrorBody) : String :=
  match firstErrorMessage body with
  | some m => if m = "" then subscriptionFailedFallback else m
  | none => subscriptionFailedFallback

/-- The full outcome of one subscribeToGhost invocation: the returned result,
the browser state afterwards, and the requests issued. -/
structure SubscribeOutput where
  result : SubscriptionResult
  env : BrowserEnv
  trace : Trace

/-- Source subscribeToGhost (main implementation), the public entry point.

Control flow of the source, in order:
1. validation: if (!email || !email.includes(\x27@\x27)) return
   {success: false, error: "Invalid email address"} with no network request;
2. try block: getIntegrityToken (a thrown exception lands in the catch block),
   then POST the payload to send-magic-link (a network-level failure lands in
   the catch block);
3. on status 201: markSubscribedThisSession (with storage disabled this throws
   and lands in the catch block), then return
   {success: true, message: successMessage};
4. on any other status: best-effort parse of the error body, return
   {success: false, error: extractedErrorMessage};
5. catch block: return {success: false, error: networkErrorMessage}.

The function is total: every exception a step can throw is handled by the
catch block, so no fault propagates to the caller. DOM and console effects are
omitted. -/
def subscribeToGhost (email : String) (net : Network) (options : SubscribeOptions)
    (env : BrowserEnv) : SubscribeOutput :=
  if email = "" || !email.data.contains '@' then
    { result := { success := false, message := none, error := some invalidEmailError }
      env := env
      trace := { integrityTokenRequested := false, magicLinkRequest := none } }
  else
    match getIntegrityToken net with
    | .error _ =>
      { result := { success := false, message := none, error := some networkErrorMessage }
        env := env
        trace := { integrityTokenRequested := true, magicLinkRequest := none } }
    | .ok integrityToken =>
      let payload := buildPayload email integrityToken options
      match net.sendMagicLinkEndpoint with
      | .networkFailure =>
        { result := { success := false, message := none, error := some networkErrorMessage }
          env := env
          trace := { integrityTokenRequested := true, magicLinkRequest := some payload } }
      | .response resp =>
        if resp.status = 201 then
          match markSubscribedThisSession env with
          | .error _ =>
            { result := { success := false, message := none, error := some networkErrorMessage }
              env := env
              trace := { integrityTokenRequested := true, magicLinkRequest := some payload } }
          | .ok envAfter =>
            { result := { success := true, message := some successMessage, error := none }
              env := envAfter
              trace := { integrityTokenRequested := true, magicLinkRequest := some payload } }
        else
          { result := { success := false, message := none
                        error := some (extractedErrorMessage resp.jsonBody) }
            env := env
            trace := { integrityTokenRequested := true, magicLinkRequest := some payload } }

/-- Source subscribeToGhost of the legacy snippet ghost-subscribe.js: issues one
POST to send-magic-link (no token fetch, no email validation), logs a network
failure, toggles two DOM classes in the finally block, and has no return
statement — the value of the call is JS undefined, modelled as none. The Bool
component records that the POST was issued. -/
def legacySubscribeToGhost (email ghostSiteBaseUrl : String)
    (sendMagicLink : FetchOutcome MagicLinkResponse) :
    Option SubscriptionResult × Bool :=
  match sendMagicLink with
  | .networkFailure => (none, true)
  | .response _ => (none, true)

/-- A browser environment with available but empty storage. -/
def demoEnv : BrowserEnv := { storageAvailable := true, session := .empty, localStore := .empty }

/-- Default options argument (JS default {}). -/
def defaultOptions : SubscribeOptions := { name := none, newsletters := none }

/-- A network where both endpoints behave: token 200, subscription 201. -/
def demoSuccessNet : Network :=
  { integrityTokenEndpoint := .response { status := 200, body := "tok_abc123" }
    sendMagicLinkEndpoint := .response { status := 201, jsonBody := none } }

/-- A network where the token endpoint is unreachable. -/
def demoDownNet : Network :=
  { integrityTokenEndpoint := .networkFailure
    sendMagicLinkEndpoint := .response { status := 201, jsonBody := none } }

/-- A network where the subscription endpoint rejects with HTTP 400 and body
{"errors":[{"message":"Member already exists"}]}. -/
def memberExistsNet : Network :=
  { integrityTokenEndpoint := .response { status := 200, body := "tok_abc123" }
    sendMagicLinkEndpoint := .response
      { status := 400
        jsonBody := some { errors := some [{ message := some "Member already exists" }] } } }

/-- A network where the subscription endpoint rejects with HTTP 400 and a body
whose first error entry carries a present but empty message field. -/
def emptyMessageNet : Network :=
  { integrityTokenEndpoint := .response { status := 200, body := "tok_abc123" }
    sendMagicLinkEndpoint := .response
      { status := 400, jsonBody := some { errors := some [{ message := some "" }] } } }

/-- A network where the subscription endpoint answers HTTP 500 with a body on
which response.json() fails (best-effort parse yields nothing). -/
def parseFailNet : Network :=
  { integrityTokenEndpoint := .response { status := 200, body := "tok_abc123" }
    sendMagicLinkEndpoint := .response { status := 500, jsonBody := none } }

/-- demoEnv after one markSubscribedThisSession. -/
def demoMarkedEnv : BrowserEnv :=
  { storageAvailable := true
    session := Store.empty.set NEWSLETTER_SESSION_KEY "true"
    localStore := Store.empty }

/-- demoMarkedEnv after a second markSubscribedThisSession. -/
def demoMarkedTwiceEnv : BrowserEnv :=
  { storageAvailable := true
    session := (Store.empty.set NEWSLETTER_SESSION_KEY "true").set
      NEWSLETTER_SESSION_KEY "true"
    localStore := Store.empty }

/-- The four storage-flag mutations the source exposes. -/
inductive FlagOp where
  | markSession
  | clearSession
  | dismiss
  | clearDismiss
deriving DecidableEq

/-- Run one storage-flag mutation of the source. -/
def applyFlagOp (env : BrowserEnv) : FlagOp → Except JsException BrowserEnv
  | .markSession => markSubscribedThisSession env
  | .clearSession => clearSessionSubscription env
  | .dismiss => dismissNewsletter env
  | .clearDismiss => clearDismissal env

/-- Run a sequence of storage-flag mutations, stopping at the first exception. -/
def runFlagOps : BrowserEnv → List FlagOp → Except JsException BrowserEnv
  | env, [] => .ok env
  | env, op :: rest =>
    match applyFlagOp env op with
    | .error e => .error e
    | .ok envNext => runFlagOps envNext rest

/-- Claim C1: for every invocation in which the token endpoint responds HTTP 200
with a token body and the subscription endpoint responds HTTP 201 (which
presupposes both requests were issued: the email passed validation, and storage
is available so the flag write does not throw), subscribeToGhost returns
{success: true, message: successMessage} with a non-empty message, and the
session subscription flag under NEWSLETTER_SESSION_KEY becomes true. -/
theorem subscribe_success_sets_session_flag
    (email tokenBody : String) (hEmail : email.data.contains '@' = true)
    (net : Network) (mlResp : MagicLinkResponse)
    (hTok : net.integrityTokenEndpoint = .response { status := 200, body := tokenBody })
    (hMl : net.sendMagicLinkEndpoint = .response mlResp) (hStatus : mlResp.status = 201)
    (options : SubscribeOptions) (env : BrowserEnv)
    (hAvail : env.storageAvailable = true) :
    (subscribeToGhost email net options env).result =
      { success := true, message := some successMessage, error := none } ∧
    successMessage ≠ "" ∧
    (subscribeToGhost email net options env).env.session.get NEWSLETTER_SESSION_KEY
      = some "true" ∧
    hasSubscribedThisSession (subscribeToGhost email net options env).env = .ok true := by
  have hne : ¬ email = "" := by
    intro h
    rw [h] at hEmail
    exact absurd hEmail (by decide)
  simp only [subscribeToGhost, getIntegrityToken, hTok, hMl, hStatus, responseOk,
    markSubscribedThisSession, sessionSetItem, hAvail, hne, hEmail,
    hasSubscribedThisSession, sessionGetItem, Store.get, Store.set,
    decide_eq_true_eq, Bool.not_true, Bool.or_false, decide_False, if_true, if_false]
  simp [hne, hEmail, hAvail, Store.get, Store.set, successMessage]

/-- Claim C1 witness. -/
theorem subscribe_success_sets_session_flag_witness :
    (subscribeToGhost "user@example.com" demoSuccessNet defaultOptions demoEnv).result =
      { success := true, message := some successMessage, error := none } ∧
    successMessage ≠ "" ∧
    (subscribeToGhost "user@example.com" demoSuccessNet defaultOptions
        demoEnv).env.session.get NEWSLETTER_SESSION_KEY = some "true" ∧
    hasSubscribedThisSession
      (subscribeToGhost "user@example.com" demoSuccessNet defaultOptions demoEnv).env
      = .ok true :=
  subscribe_success_sets_session_flag "user@example.com" "tok_abc123" (by decide)
    demoSuccessNet { status := 201, jsonBody := none } rfl rfl rfl
    defaultOptions demoEnv rfl

/-- Claim C2 counterexample: on an email with no at-sign, the error field of the
returned value is "Invalid email address", not the claimed
"Please enter a valid email address" (that text is only written into the DOM
error element). -/
theorem invalid_email_error_string_differs :
    (subscribeToGhost "not-an-email" demoSuccessNet defaultOptions demoEnv).result.error
      = some invalidEmailError ∧
    invalidEmailError ≠ invalidEmailDisplayText := by
  constructor
  · rfl
  · decide

/-- Claim C2 (amended): for every email string with no at-sign, subscribeToGhost
returns {success: false, error: "Invalid email address"} (the text
"Please enter a valid email address" is only displayed in the DOM error
element) and issues no network request: neither the token GET nor the
subscription POST. -/
theorem invalid_email_no_network_request
    (email : String) (hEmail : email.data.contains '@' = false)
    (net : Network) (options : SubscribeOptions) (env : BrowserEnv) :
    subscribeToGhost email net options env =
      { result := { success := false, message := none, error := some invalidEmailError }
        env := env
        trace := { integrityTokenRequested := false, magicLinkRequest := none } } := by
  have hmem : ¬ ('@' ∈ email.data) := by simpa using hEmail
  simp [subscribeToGhost, hmem]

/-- Claim C2 (amended) witness. -/
theorem invalid_email_no_network_request_witness :
    subscribeToGhost "invalid-address" demoSuccessNet defaultOptions demoEnv =
      { result := { success := false, message := none, error := some invalidEmailError }
        env := demoEnv
        trace := { integrityTokenRequested := false, magicLinkRequest := none } } :=
  invalid_email_no_network_request "invalid-address" (by decide)
    demoSuccessNet defaultOptions demoEnv

/-- Claim C3: for every invocation in which the GET to the integrity-token
endpoint fails at the network level (the email passed validation, so the GET is
issued), subscribeToGhost returns {success: false, error: networkErrorMessage}
and the subscription POST is never issued. -/
theorem token_network_failure_skips_subscribe
    (email : String) (hEmail : email.data.contains '@' = true)
    (net : Network) (hTok : net.integrityTokenEndpoint = .networkFailure)
    (options : SubscribeOptions) (env : BrowserEnv) :
    subscribeToGhost email net options env =
      { result := { success := false, message := none, error := some networkErrorMessage }
        env := env
        trace := { integrityTokenRequested := true, magicLinkRequest := none } } := by
  have hne : ¬ email = "" := by
    intro h
    rw [h] at hEmail
    exact absurd hEmail (by decide)
  have hmem : '@' ∈ email.data := by simpa using hEmail
  simp [subscribeToGhost, getIntegrityToken, hTok, hne, hmem]

/-- Claim C3 witness. -/
theorem token_network_failure_skips_subscribe_witness :
    subscribeToGhost "user@example.com" demoDownNet defaultOptions demoEnv =
      { result := { success := false, message := none, error := some networkErrorMessage }
        env := demoEnv
        trace := { integrityTokenRequested := true, magicLinkRequest := none } } :=
  token_network_failure_skips_subscribe "user@example.com" (by decide)
    demoDownNet rfl defaultOptions demoEnv

/-- Claim C4 counterexample: the subscription endpoint answers HTTP 400 with
body errors = [{message: ""}] — the message field of the first error entry is
present (and equal to "") — yet the resulting error is the generic fallback,
not that present field: the JS || operator treats the empty string as falsy. -/
theorem present_empty_message_falls_back :
    (subscribeToGhost "user@example.com" emptyMessageNet defaultOptions demoEnv).result.error
      = some subscriptionFailedFallback ∧
    firstErrorMessage (some { errors := some [{ message := some "" }] }) = some "" ∧
    subscriptionFailedFallback ≠ "" := by
  refine ⟨rfl, rfl, by decide⟩

/-- Claim C4 (amended): for every subscription-endpoint response with a status
other than 201 (in an invocation that reaches the POST: the email passed
validation and the token fetch succeeded), the outcome is a rejection whose
message equals the message field of the first entry of the JSON error body's
errors array when that field is present and non-empty, and equals the generic
fallback string otherwise; in particular a JSON parse failure of the error body
never raises and yields the fallback message. -/
theorem rejected_error_message_extraction
    (email : String) (hEmail : email.data.contains '@' = true)
    (net : Network) (tokResp : TokenResponse)
    (hTok : net.integrityTokenEndpoint = .response tokResp)
    (hOk : responseOk tokResp.status = true)
    (mlResp : MagicLinkResponse)
    (hMl : net.sendMagicLinkEndpoint = .response mlResp)
    (hStatus : ¬ mlResp.status = 201)
    (options : SubscribeOptions) (env : BrowserEnv) :
    (subscribeToGhost email net options env).result.success = false ∧
    (subscribeToGhost email net options env).result.message = none ∧
    (∀ m : String, firstErrorMessage mlResp.jsonBody = some m → m ≠ "" →
      (subscribeToGhost email net options env).result.error = some m) ∧
    (firstErrorMessage mlResp.jsonBody = some "" →
      (subscribeToGhost email net options env).result.error
        = some subscriptionFailedFallback) ∧
    (firstErrorMessage mlResp.jsonBody = none →
      (subscribeToGhost email net options env).result.error
        = some subscriptionFailedFallback) := by
  have hne : ¬ email = "" := by
    intro h
    rw [h] at hEmail
    exact absurd hEmail (by decide)
  have hmem : '@' ∈ email.data := by simpa using hEmail
  have hmain : (subscribeToGhost email net options env).result =
      { success := false, message := none
        error := some (extractedErrorMessage mlResp.jsonBody) } := by
    simp [subscribeToGhost, getIntegrityToken, hTok, hOk, hMl, hStatus, hne, hmem]
  rw [hmain]
  refine ⟨rfl, rfl, ?_, ?_, ?_⟩
  · intro m hm hm0
    simp [extractedErrorMessage, hm, hm0]
  · intro hm
    simp [extractedErrorMessage, hm]
  · intro hm
    simp [extractedErrorMessage, hm]

/-- Claim C4 (amended) witness: a parse-failure error body at HTTP 500 yields
the fallback message. -/
theorem rejected_error_message_extraction_witness :
    (subscribeToGhost "user@example.com" parseFailNet defaultOptions demoEnv).result.success
      = false ∧
    (subscribeToGhost "user@example.com" parseFailNet defaultOptions demoEnv).result.error
      = some subscriptionFailedFallback := by
  have h := rejected_error_message_extraction "user@example.com" (by decide)
    parseFailNet { status := 200, body := "tok_abc123" } rfl (by decide)
    { status := 500, jsonBody := none } rfl (by decide) defaultOptions demoEnv
  exact ⟨h.1, h.2.2.2.2 rfl⟩

/-- Claim C5: for every invocation in which the subscription endpoint responds
with a non-201 status, subscribeToGhost returns {success: false, error:
extracted message} and leaves the browser storage — in particular the session
subscription flag — unchanged. -/
theorem rejected_leaves_session_flag_unchanged
    (email : String) (hEmail : email.data.contains '@' = true)
    (net : Network) (tokResp : TokenResponse)
    (hTok : net.integrityTokenEndpoint = .response tokResp)
    (hOk : responseOk tokResp.status = true)
    (mlResp : MagicLinkResponse)
    (hMl : net.sendMagicLinkEndpoint = .response mlResp)
    (hStatus : ¬ mlResp.status = 201)
    (options : SubscribeOptions) (env : BrowserEnv) :
    (subscribeToGhost email net options env).result =
      { success := false, message := none
        error := some (extractedErrorMessage mlResp.jsonBody) } ∧
    (subscribeToGhost email net options env).env = env ∧
    hasSubscribedThisSession (subscribeToGhost email net options env).env
      = hasSubscribedThisSession env := by
  have hne : ¬ email = "" := by
    intro h
    rw [h] at hEmail
    exact absurd hEmail (by decide)
  have hmem : '@' ∈ email.data := by
    simpa using hEmail
  simp [subscribeToGhost, getIntegrityToken, hTok, hOk, hMl, hStatus, hne, hmem]

/-- Claim C5 witness: HTTP 400 with body errors = [{message: "Member already
exists"}] yields {success: false, error: "Member already exists"} and the
session flag stays false. -/
theorem rejected_leaves_session_flag_unchanged_witness :
    (subscribeToGhost "user@example.com" memberExistsNet defaultOptions demoEnv).result =
      { success := false, message := none, error := some "Member already exists" } ∧
    (subscribeToGhost "user@example.com" memberExistsNet defaultOptions demoEnv).env
      = demoEnv ∧
    hasSubscribedThisSession demoEnv = .ok false ∧
    hasSubscribedThisSession
      (subscribeToGhost "user@example.com" memberExistsNet defaultOptions demoEnv).env
      = .ok false := by
  have h := rejected_leaves_session_flag_unchanged "user@example.com" (by decide)
    memberExistsNet { status := 200, body := "tok_abc123" } rfl (by decide)
    { status := 400
      jsonBody := some { errors := some [{ message := some "Member already exists" }] } }
    rfl (by decide) defaultOptions demoEnv
  refine ⟨h.1, h.2.1, rfl, ?_⟩
  rw [h.2.1]
  rfl

/-- Claim C6 (code bug): the source guards no storage access, so in a
storage-unavailable environment reads do not degrade to false and writes are
not no-ops: hasSubscribedThisSession, hasUserDismissedPermanently, the
page-load check shouldShowForm, and the writes dismissNewsletter,
clearDismissal and clearSessionSubscription all propagate the storage
exception, contradicting the required never-throw behaviour. -/
theorem storage_unavailable_operations_throw (session localStore : Store) :
    hasSubscribedThisSession ⟨false, session, localStore⟩
      = .error .storageDisabled ∧
    hasUserDismissedPermanently ⟨false, session, localStore⟩
      = .error .storageDisabled ∧
    shouldShowForm ⟨false, session, localStore⟩ = .error .storageDisabled ∧
    dismissNewsletter ⟨false, session, localStore⟩ = .error .storageDisabled ∧
    clearDismissal ⟨false, session, localStore⟩ = .error .storageDisabled ∧
    clearSessionSubscription ⟨false, session, localStore⟩
      = .error .storageDisabled := by
  refine ⟨rfl, rfl, rfl, rfl, rfl, rfl⟩

/-- Claim C7 counterexample: the entry point subscribeToGhost of the legacy
snippet ghost-subscribe.js has no return statement, so at this concrete input —
even with the POST issued and answered HTTP 201 — its returned value is
undefined (none), not some SubscriptionResult populating one of
message/error. -/
theorem legacy_subscribe_returns_no_result :
    (legacySubscribeToGhost "user@example.com" "https://example.com"
        (.response { status := 201, jsonBody := none })).1 = none ∧
    (legacySubscribeToGhost "user@example.com" "https://example.com"
        (.response { status := 201, jsonBody := none })).2 = true :=
  ⟨rfl, rfl⟩

/-- Claim C7 (amended): every value returned by the full implementation's
subscribeToGhost — for every input, network outcome and browser state,
including a storage-unavailable one — is a SubscriptionResult populating
exactly one of message/error, consistent with success; the embedding is total,
reflecting that the catch block converts every locally-thrown error, so no
error kind propagates to the caller. The legacy snippet's subscribeToGhost
instead returns undefined. -/
theorem subscribe_result_well_formed
    (email : String) (net : Network) (options : SubscribeOptions)
    (env : BrowserEnv) :
    (subscribeToGhost email net options env).result.message.isSome
      = (subscribeToGhost email net options env).result.success ∧
    (subscribeToGhost email net options env).result.error.isSome
      = !(subscribeToGhost email net options env).result.success := by
  unfold subscribeToGhost
  split
  · exact ⟨rfl, rfl⟩
  · split
    · exact ⟨rfl, rfl⟩
    · split
      · exact ⟨rfl, rfl⟩
      · split
        · split
          · exact ⟨rfl, rfl⟩
          · exact ⟨rfl, rfl⟩
        · exact ⟨rfl, rfl⟩

/-- Setting the same key to the same value twice equals setting it once. -/
theorem Store.set_set_same (s : Store) (k v : String) :
    (s.set k v).set k v = s.set k v := by
  unfold Store.set
  congr 1
  funext q
  by_cases h : q = k <;> simp [h]

/-- Auxiliary: a flag operation other than clearSessionSubscription and
dismissNewsletter keeps storage available, keeps the session flag set, and
keeps the permanent flag unset. -/
theorem applyFlagOp_preserves
    (env envNext : BrowserEnv) (op : FlagOp)
    (hcs : op ≠ FlagOp.clearSession) (hd : op ≠ FlagOp.dismiss)
    (h : applyFlagOp env op = .ok envNext)
    (hAvail : env.storageAvailable = true)
    (hSess : env.session.get NEWSLETTER_SESSION_KEY = some "true")
    (hPerm : ¬ env.localStore.get NEWSLETTER_NEVER_SHOW_KEY = some "true") :
    envNext.storageAvailable = true ∧
    envNext.session.get NEWSLETTER_SESSION_KEY = some "true" ∧
    ¬ envNext.localStore.get NEWSLETTER_NEVER_SHOW_KEY = some "true" := by
  cases op with
  | markSession =>
    simp only [applyFlagOp, markSubscribedThisSession, sessionSetItem, hAvail,
      if_true, Except.ok.injEq] at h
    subst h
    refine ⟨rfl, ?_, hPerm⟩
    simp [Store.get, Store.set]
  | clearSession => exact absurd rfl hcs
  | dismiss => exact absurd rfl hd
  | clearDismiss =>
    simp only [applyFlagOp, clearDismissal, localRemoveItem, hAvail,
      if_true, Except.ok.injEq] at h
    subst h
    refine ⟨rfl, hSess, ?_⟩
    simp [Store.get, Store.remove]

/-- Auxiliary: running flag operations that avoid clearSessionSubscription and
dismissNewsletter preserves storage availability, the set session flag and the
unset permanent flag. -/
theorem runFlagOps_preserves (ops : List FlagOp) :
    ∀ env envEnd : BrowserEnv,
      (∀ op ∈ ops, op ≠ FlagOp.clearSession ∧ op ≠ FlagOp.dismiss) →
      runFlagOps env ops = .ok envEnd →
      env.storageAvailable = true →
      env.session.get NEWSLETTER_SESSION_KEY = some "true" →
      ¬ env.localStore.get NEWSLETTER_NEVER_SHOW_KEY = some "true" →
      envEnd.storageAvailable = true ∧
      envEnd.session.get NEWSLETTER_SESSION_KEY = some "true" ∧
      ¬ envEnd.localStore.get NEWSLETTER_NEVER_SHOW_KEY = some "true" := by
  induction ops with
  | nil =>
    intro env envEnd _ h h1 h2 h3
    simp only [runFlagOps, Except.ok.injEq] at h
    subst h
    exact ⟨h1, h2, h3⟩
  | cons op rest ih =>
    intro env envEnd hops h h1 h2 h3
    have hop := hops op (List.mem_cons_self op rest)
    rw [runFlagOps] at h
    cases ha : applyFlagOp env op with
    | error e => rw [ha] at h; cases h
    | ok envNext =>
      rw [ha] at h
      obtain ⟨a1, a2, a3⟩ :=
        applyFlagOp_preserves env envNext op hop.1 hop.2 ha h1 h2 h3
      exact ih envNext envEnd (fun o ho => hops o (List.mem_cons_of_mem op ho))
        h a1 a2 a3

/-- Claim C8: round-trip of the session flag. With storage available and the
permanent-dismissal flag false, after markSubscribedThisSession the check
shouldShowForm returns false, and keeps returning false after any further flag
operations avoiding clearSessionSubscription (and dismissNewsletter, which
would set the permanent flag); once clearSessionSubscription is performed the
next shouldShowForm returns true again. -/
theorem session_flag_roundtrip
    (env : BrowserEnv) (hAvail : env.storageAvailable = true)
    (hNotDismissed : hasUserDismissedPermanently env = .ok false)
    (ops : List FlagOp)
    (hops : ∀ op ∈ ops, op ≠ FlagOp.clearSession ∧ op ≠ FlagOp.dismiss)
    (envMarked envEnd : BrowserEnv)
    (hMark : markSubscribedThisSession env = .ok envMarked)
    (hRun : runFlagOps envMarked ops = .ok envEnd) :
    shouldShowForm envEnd = .ok false ∧
    ∃ envCleared, clearSessionSubscription envEnd = .ok envCleared ∧
      shouldShowForm envCleared = .ok true := by
  have hPerm : ¬ env.localStore.get NEWSLETTER_NEVER_SHOW_KEY = some "true" := by
    intro hc
    have h1 : (env.localStore.get NEWSLETTER_NEVER_SHOW_KEY == some "true") = false := by
      simpa [hasUserDismissedPermanently, localGetItem, hAvail] using hNotDismissed
    rw [hc] at h1
    simp at h1
  simp only [markSubscribedThisSession, sessionSetItem, hAvail, if_true,
    Except.ok.injEq] at hMark
  subst hMark
  have hm2 : (env.session.set NEWSLETTER_SESSION_KEY "true").get NEWSLETTER_SESSION_KEY
      = some "true" := by
    simp [Store.get, Store.set]
  obtain ⟨e1, e2, e3⟩ := runFlagOps_preserves ops _ envEnd hops hRun rfl hm2 hPerm
  have e3d : ¬ envEnd.localStore.data NEWSLETTER_NEVER_SHOW_KEY = some "true" := e3
  constructor
  · simp [shouldShowForm, hasSubscribedThisSession, sessionGetItem, e1, e2]
  · refine ⟨{ envEnd with session := envEnd.session.remove NEWSLETTER_SESSION_KEY },
      ?_, ?_⟩
    · simp [clearSessionSubscription, sessionRemoveItem, e1]
    · simp [shouldShowForm, hasSubscribedThisSession, sessionGetItem,
        hasUserDismissedPermanently, localGetItem, e1, Store.get, Store.remove, e3d]

/-- Claim C8 witness: starting from available empty storage, marking twice and
then clearing flips shouldShowForm from false back to true. -/
theorem session_flag_roundtrip_witness :
    shouldShowForm demoMarkedTwiceEnv = .ok false ∧
    ∃ envCleared, clearSessionSubscription demoMarkedTwiceEnv = .ok envCleared ∧
      shouldShowForm envCleared = .ok true :=
  session_flag_roundtrip demoEnv rfl rfl [FlagOp.markSession] (by decide)
    demoMarkedEnv demoMarkedTwiceEnv rfl rfl

/-- Claim C9: the permanent-dismissal action is idempotent: with storage
available, dismissNewsletter succeeds, a second dismissNewsletter also succeeds
(no error) and returns exactly the same storage state, and the
permanently-dismissed flag reads true afterwards. -/
theorem dismiss_idempotent (env : BrowserEnv)
    (hAvail : env.storageAvailable = true) :
    ∃ envAfter, dismissNewsletter env = .ok envAfter ∧
      dismissNewsletter envAfter = .ok envAfter ∧
      hasUserDismissedPermanently envAfter = .ok true := by
  refine ⟨{ env with localStore := env.localStore.set NEWSLETTER_NEVER_SHOW_KEY "true" },
    ?_, ?_, ?_⟩
  · simp [dismissNewsletter, localSetItem, hAvail]
  · simp only [dismissNewsletter, localSetItem, hAvail, if_true]
    rw [Store.set_set_same]
  · simp [hasUserDismissedPermanently, localGetItem, hAvail, Store.get, Store.set]

/-- Claim C9 witness. -/
theorem dismiss_idempotent_witness :
    ∃ envAfter, dismissNewsletter demoEnv = .ok envAfter ∧
      dismissNewsletter envAfter = .ok envAfter ∧
      hasUserDismissedPermanently envAfter = .ok true :=
  dismiss_idempotent demoEnv rfl

/-- Claim C10: the two flags are independent. With storage available,
markSubscribedThisSession and clearSessionSubscription leave the permanent
store untouched (hence the permanent-dismissal flag unchanged) and touch no
session key other than NEWSLETTER_SESSION_KEY; dismissNewsletter and
clearDismissal leave the session store untouched (hence the session
subscription flag unchanged) and touch no permanent key other than
NEWSLETTER_NEVER_SHOW_KEY — for every starting storage state. -/
theorem flag_operations_independent (env : BrowserEnv)
    (hAvail : env.storageAvailable = true) :
    (∀ envNext, markSubscribedThisSession env = .ok envNext →
      envNext.localStore = env.localStore ∧
      hasUserDismissedPermanently envNext = hasUserDismissedPermanently env ∧
      ∀ k, ¬ k = NEWSLETTER_SESSION_KEY →
        envNext.session.get k = env.session.get k) ∧
    (∀ envNext, clearSessionSubscription env = .ok envNext →
      envNext.localStore = env.localStore ∧
      hasUserDismissedPermanently envNext = hasUserDismissedPermanently env ∧
      ∀ k, ¬ k = NEWSLETTER_SESSION_KEY →
        envNext.session.get k = env.session.get k) ∧
    (∀ envNext, dismissNewsletter env = .ok envNext →
      envNext.session = env.session ∧
      hasSubscribedThisSession envNext = hasSubscribedThisSession env ∧
      ∀ k, ¬ k = NEWSLETTER_NEVER_SHOW_KEY →
        envNext.localStore.get k = env.localStore.get k) ∧
    (∀ envNext, clearDismissal env = .ok envNext →
      envNext.session = env.session ∧
      hasSubscribedThisSession envNext = hasSubscribedThisSession env ∧
      ∀ k, ¬ k = NEWSLETTER_NEVER_SHOW_KEY →
        envNext.localStore.get k = env.localStore.get k) := by
  refine ⟨?_, ?_, ?_, ?_⟩
  · intro envNext h
    simp only [markSubscribedThisSession, sessionSetItem, hAvail, if_true,
      Except.ok.injEq] at h
    subst h
    refine ⟨rfl, by simp [hasUserDismissedPermanently, localGetItem, hAvail], ?_⟩
    intro k hk
    simp [Store.get, Store.set, hk]
  · intro envNext h
    simp only [clearSessionSubscription, sessionRemoveItem, hAvail, if_true,
      Except.ok.injEq] at h
    subst h
    refine ⟨rfl, by simp [hasUserDismissedPermanently, localGetItem, hAvail], ?_⟩
    intro k hk
    simp [Store.get, Store.remove, hk]
  · intro envNext h
    simp only [dismissNewsletter, localSetItem, hAvail, if_true,
      Except.ok.injEq] at h
    subst h
    refine ⟨rfl, by simp [hasSubscribedThisSession, sessionGetItem, hAvail], ?_⟩
    intro k hk
    simp [Store.get, Store.set, hk]
  · intro envNext h
    simp only [clearDismissal, localRemoveItem, hAvail, if_true,
      Except.ok.injEq] at h
    subst h
    refine ⟨rfl, by simp [hasSubscribedThisSession, sessionGetItem, hAvail], ?_⟩
    intro k hk
    simp [Store.get, Store.remove, hk]

/-- Claim C10 witness. -/
theorem flag_operations_independent_witness :
    (∀ envNext, markSubscribedThisSession demoEnv = .ok envNext →
      envNext.localStore = demoEnv.localStore ∧
      hasUserDismissedPermanently envNext = hasUserDismissedPermanently demoEnv ∧
      ∀ k, ¬ k = NEWSLETTER_SESSION_KEY →
        envNext.session.get k = demoEnv.session.get k) ∧
    (∀ envNext, clearSessionSubscription demoEnv = .ok envNext →
      envNext.localStore = demoEnv.localStore ∧
      hasUserDismissedPermanently envNext = hasUserDismissedPermanently demoEnv ∧
      ∀ k, ¬ k = NEWSLETTER_SESSION_KEY →
        envNext.session.get k = demoEnv.session.get k) ∧
    (∀ envNext, dismissNewsletter demoEnv = .ok envNext →
      envNext.session = demoEnv.session ∧
      hasSubscribedThisSession envNext = hasSubscribedThisSession demoEnv ∧
      ∀ k, ¬ k = NEWSLETTER_NEVER_SHOW_KEY →
        envNext.localStore.get k = demoEnv.localStore.get k) ∧
    (∀ envNext, clearDismissal demoEnv = .ok envNext →
      envNext.session = demoEnv.session ∧
      hasSubscribedThisSession envNext = hasSubscribedThisSession demoEnv ∧
      ∀ k, ¬ k = NEWSLETTER_NEVER_SHOW_KEY →
        envNext.localStore.get k = demoEnv.localStore.get k) :=
  flag_operations_independent demoEnv rfl

end GhostSubscribe
